import Mathlib

/-!
Verification of the Agent Delegation Gateway of `buildaagent`.

Shallow embedding of:
- `src/packages/buildaagent/src/gateway/openclaw-gateway.ts`
  (`categorizeError`, `isRetryable`, `buildErrorMessage`,
   `OpenClawGateway.withRetry`, `OpenClawGateway.generateResponse`,
   `OpenClawGateway.delegateToAgent`)
- `src/packages/buildaagent/src/core/persona-engine.ts`
  (`PersonaEngine.orchestrateTask`, `PersonaEngine.processMessage`,
   `PersonaEngine.getErrorResponse`)

JavaScript errors are modelled as a record of the fields the code inspects
(`name`, `cause.code`, `message`).  The async attempt body of each gateway
call is modelled as a function from the attempt index to the outcome of its
single `fetch`, so the number of attempt-body invocations equals the number
of chat-completion POSTs.  Wall-clock sleeping is modelled by recording the
computed delays in a list.
-/

set_option maxHeartbeats 1000000
set_option maxRecDepth 100000

namespace Buildaagent

/-- The fields of a raised JavaScript error that the gateway code inspects:
`error.name`, `error.cause?.code` and `error.message`. -/
structure JsError where
  name : String
  causeCode : Option String
  message : String
deriving DecidableEq, Repr

/-- The four failure categories returned by `categorizeError`
(`'timeout' | 'network' | 'http' | 'agent'`). -/
inductive FailureCategory where
  | timeout
  | network
  | http
  | agent
deriving DecidableEq, Repr

/-- `listHasPre needle hay` is true when `needle` is an initial segment of
`hay` (character-by-character comparison). -/
def listHasPre : List Char → List Char → Bool
  | [], _ => true
  | _ :: _, [] => false
  | a :: as, b :: bs => a == b && listHasPre as bs

/-- `containsSub needle hay`: does `needle` occur contiguously inside `hay`?
Models JavaScript `String.prototype.includes`. -/
def containsSub (needle : List Char) : List Char → Bool
  | [] => listHasPre needle []
  | b :: bs => listHasPre needle (b :: bs) || containsSub needle bs

/-- The substring tested by `error.message?.includes('fetch failed')`. -/
def fetchFailedStr : String := "fetch failed"

/-- Is `HTTP ` (with trailing space) the head of these characters? -/
def headHTTP : List Char → Bool
  | a :: b :: c :: d :: e :: _ =>
      a == 'H' && b == 'T' && c == 'T' && d == 'P' && e == ' '
  | _ => false

/-- Models `error.message?.startsWith('HTTP ')`. -/
def startsWithHTTP (m : String) : Bool :=
  headHTTP m.data

/-- Models the regex test `error.message?.match(/^HTTP 5\d\d/)` used by
`isRetryable`: the message starts with `HTTP `, the next character is `5`,
and the two characters after that are decimal digits. -/
def matchHTTP5dd (m : String) : Bool :=
  match m.data with
  | a :: b :: c :: d :: e :: c1 :: c2 :: c3 :: _ =>
      a == 'H' && b == 'T' && c == 'T' && d == 'P' && e == ' ' &&
      c1 == '5' && c2.isDigit && c3.isDigit
  | _ => false

/-- Models `error.message?.match(/^HTTP (\d+)/)?.[1] || 'unknown'` from
`buildErrorMessage`: the maximal run of digits following `HTTP `, as a
string, or `"unknown"` when there is no such run. -/
def httpStatusString (m : String) : String :=
  match m.data with
  | a :: b :: c :: d :: e :: rest =>
      if a == 'H' && b == 'T' && c == 'T' && d == 'P' && e == ' ' then
        let ds := rest.takeWhile Char.isDigit
        if ds = [] then "unknown" else String.mk ds
      else "unknown"
  | _ => "unknown"

/-- Numeric value of a run of decimal digits. -/
def digitsToNat (ds : List Char) : Nat :=
  ds.foldl (fun n c => n * 10 + (c.toNat - 48)) 0

/-- The numeric HTTP status carried by an error message of the form
`HTTP <digits>...`, when present. -/
def parseStatusNat (m : String) : Option Nat :=
  match m.data with
  | a :: b :: c :: d :: e :: rest =>
      if a == 'H' && b == 'T' && c == 'T' && d == 'P' && e == ' ' then
        let ds := rest.takeWhile Char.isDigit
        if ds = [] then none else some (digitsToNat ds)
      else none
  | _ => none

/-- Models `status.startsWith('5')` on the extracted status string. -/
def strStartsWith5 (s : String) : Bool :=
  match s.data with
  | c :: _ => c == '5'
  | [] => false

/-- `categorizeError` from `openclaw-gateway.ts` (lines 54–61): maps a raised
error to exactly one of `timeout`, `network`, `http`, `agent`, in that
priority order. -/
def categorizeError (e : JsError) : FailureCategory :=
  if e.name = "AbortError" then .timeout
  else if (e.causeCode = some "ECONNREFUSED" ∨ e.causeCode = some "ECONNRESET" ∨
      e.causeCode = some "ENOTFOUND" ∨ e.causeCode = some "UND_ERR_CONNECT_TIMEOUT" ∨
      containsSub fetchFailedStr.data e.message.data = true) then .network
  else if startsWithHTTP e.message = true then .http
  else .agent

/-- `isRetryable` from `openclaw-gateway.ts` (lines 66–72): true for
`timeout` and `network`, and for `http` when the message matches
`/^HTTP 5\d\d/`; false otherwise. -/
def isRetryable (e : JsError) : Bool :=
  match categorizeError e with
  | .timeout => true
  | .network => true
  | .http => matchHTTP5dd e.message
  | .agent => false

/-- `buildErrorMessage` from `openclaw-gateway.ts` (lines 74–91). -/
def buildErrorMessage (e : JsError) (context : String) : String :=
  match categorizeError e with
  | .timeout =>
      context ++ ": Request timed out — the VPS agent may be under heavy load or unreachable. Consider increasing the timeout."
  | .network =>
      context ++ ": Network error — could not reach the VPS. Check that the gateway URL is correct and the server is running. (" ++ e.message ++ ")"
  | .http =>
      let status := httpStatusString e.message
      if strStartsWith5 status then
        context ++ ": VPS server error (HTTP " ++ status ++ ") — the agent gateway encountered an internal error."
      else
        context ++ ": HTTP " ++ status ++ " — " ++ e.message
  | .agent =>
      context ++ ": " ++ e.message

/-- `RetryConfig` from `openclaw-gateway.ts` (lines 20–24). -/
structure RetryConfig where
  maxRetries : Nat
  baseDelayMs : Nat
  maxDelayMs : Nat
deriving DecidableEq, Repr

/-- Outcome of one run of `withRetry`: the returned value or the composed
thrown error message, the list of backoff delays slept (in order), and the
number of times the wrapped operation was invoked. -/
structure RunResult (T : Type) where
  result : Except String T
  sleeps : List Nat
  calls : Nat
deriving Repr

/-- The loop body of `OpenClawGateway.withRetry` (lines 312–338).  `attempt`
is the loop counter; `gas` is the number of loop iterations still permitted
(`maxRetries + 1 - attempt` at every reachable call, so the `gas = 0` base
case is never reached from `withRetry`).  On failure the loop breaks when
`attempt === maxRetries || !isRetryable(error)`; otherwise it sleeps
`min(baseDelayMs * 2^attempt, maxDelayMs)` and re-enters with
`attempt + 1`. -/
def withRetryGo {T : Type} (cfg : RetryConfig) (ctx : String)
    (out : Nat → Except JsError T) : Nat → Nat → RunResult T
  | _, 0 => ⟨Except.error "", [], 0⟩
  | attempt, gas + 1 =>
    match out attempt with
    | Except.ok v => ⟨Except.ok v, [], 1⟩
    | Except.error e =>
      if attempt = cfg.maxRetries ∨ isRetryable e = false then
        ⟨Except.error (buildErrorMessage e ctx), [], 1⟩
      else
        let delay := min (cfg.baseDelayMs * 2 ^ attempt) cfg.maxDelayMs
        let rest := withRetryGo cfg ctx out (attempt + 1) gas
        ⟨rest.result, delay :: rest.sleeps, rest.calls + 1⟩

/-- `OpenClawGateway.withRetry(operationName, fn)`: runs the loop from
`attempt = 0` and, on exhaustion or a non-retryable failure, throws
`buildErrorMessage(lastError, "OpenClaw " + operationName)`.  `out n` is the
outcome of the `n`-th invocation of `fn` (each invocation performs exactly
one chat-completion POST). -/
def withRetry {T : Type} (cfg : RetryConfig) (operationName : String)
    (out : Nat → Except JsError T) : RunResult T :=
  withRetryGo cfg ("OpenClaw " ++ operationName) out 0 (cfg.maxRetries + 1)

/-- One `choices[i].message` payload of an OpenAI-compatible response. -/
structure ChoiceMessage where
  content : String
deriving DecidableEq, Repr

/-- One element of the `choices` array. -/
structure Choice where
  message : ChoiceMessage
deriving DecidableEq, Repr

/-- The parsed JSON body of a chat-completion response (`OpenAIResponse` in
the source).  A missing or empty `choices` array is modelled by `[]`. -/
structure OpenAIResponse where
  choices : List Choice
deriving DecidableEq, Repr

/-- What one `fetch` of `/v1/chat/completions` yields when it does not
throw: `response.ok`, `response.status`, the body text read on the non-ok
path, and the parsed JSON read on the ok path. -/
structure HttpResp where
  ok : Bool
  status : Nat
  body : String
  json : OpenAIResponse
deriving DecidableEq, Repr

/-- The error thrown by `generateResponse` when the payload lacks a
non-empty `choices` array: `new Error('Unexpected OpenAI response format')`. -/
def genFormatErr : JsError := ⟨"Error", none, "Unexpected OpenAI response format"⟩

/-- The error thrown by `delegateToAgent` when the payload lacks a
non-empty `choices` array:
`new Error('Unexpected response format from delegated agent')`. -/
def delegFormatErr : JsError := ⟨"Error", none, "Unexpected response format from delegated agent"⟩

/-- The error thrown on a non-ok response:
the template `HTTP <response.status>: <errorText>`. -/
def httpErrOf (status : Nat) (body : String) : JsError :=
  ⟨"Error", none, "HTTP " ++ Nat.repr status ++ ": " ++ body⟩

/-- The attempt body of `generateResponse` (lines 149–185): one fetch,
then `HTTP <status>` error on non-ok, the first choice's content on a
non-empty `choices`, and the format error otherwise. -/
def genAttempt (f : Except JsError HttpResp) : Except JsError String :=
  match f with
  | Except.error e => Except.error e
  | Except.ok r =>
    if r.ok = true then
      match r.json.choices with
      | c :: _ => Except.ok c.message.content
      | [] => Except.error genFormatErr
    else Except.error (httpErrOf r.status r.body)

/-- `DelegationResult` from `openclaw-gateway.ts` (lines 14–18); `taskType`
is a string here because `orchestrateTask` casts an arbitrary cleaned LLM
reply into `TaskType`. -/
structure DelegationResult where
  taskType : String
  agentId : String
  response : String
deriving DecidableEq, Repr

/-- The attempt body of `delegateToAgent` (lines 215–252). -/
def delegAttempt (taskType targetAgent : String)
    (f : Except JsError HttpResp) : Except JsError DelegationResult :=
  match f with
  | Except.error e => Except.error e
  | Except.ok r =>
    if r.ok = true then
      match r.json.choices with
      | c :: _ => Except.ok ⟨taskType, targetAgent, c.message.content⟩
      | [] => Except.error delegFormatErr
    else Except.error (httpErrOf r.status r.body)

/-- The constructor-resolved state of an `OpenClawGateway` instance
(lines 93–109): defaults already applied, `authToken` still optional. -/
structure OpenClawGateway where
  gatewayUrl : String
  agentId : String
  authToken : Option String
  timeout : Nat
  retry : RetryConfig
deriving DecidableEq, Repr

/-- The `agentMap` lookup inside `delegateToAgent` (lines 193–197), with
JavaScript record-lookup semantics: a key that is not `main`, `coder` or
`marketing` yields `undefined`, modelled as `none`. -/
def agentMap (g : OpenClawGateway) (taskType : String) : Option String :=
  if taskType = "main" then some g.agentId
  else if taskType = "coder" then some "coder"
  else if taskType = "marketing" then some "marketing"
  else none

/-- `targetAgent` as it is interpolated into strings: JavaScript renders the
`undefined` produced by a missed record lookup as the text `undefined`. -/
def targetAgentOf (g : OpenClawGateway) (taskType : String) : String :=
  (agentMap g taskType).getD "undefined"

/-- The `model` field of the delegation POST body:
`openclaw:` followed by `targetAgent` (line 227). -/
def delegationModel (g : OpenClawGateway) (taskType : String) : String :=
  "openclaw:" ++ targetAgentOf g taskType

/-- Result of `checkConnection` (lines 115–140). -/
structure ProbeResult where
  reachable : Bool
  latencyMs : Nat
  error : Option String
deriving DecidableEq, Repr

/-- JavaScript `a || b` where `a` is an optional string: the default wins
when `a` is absent or empty (falsy). -/
def jsOrElse (o : Option String) (d : String) : String :=
  match o with
  | some s => if s = "" then d else s
  | none => d

/-- Outcome of one call to `delegateToAgent`: result or thrown message,
backoff sleeps, number of chat-completion POSTs issued, and whether the
pre-flight connection probe was performed. -/
structure DelegRun where
  result : Except String DelegationResult
  sleeps : List Nat
  posts : Nat
  probed : Bool
deriving Repr

/-- `OpenClawGateway.generateResponse` (lines 142–186).  `fetches n` is the
outcome of the fetch performed by the `n`-th attempt.  The auth-token check
happens before `withRetry`, so a missing token yields zero fetches and zero
sleeps.  The `calls` field counts attempt-body invocations = POSTs. -/
def generateResponse (g : OpenClawGateway)
    (fetches : Nat → Except JsError HttpResp) : RunResult String :=
  if g.authToken = none then
    ⟨Except.error "Auth token required for OpenClaw OpenAI API", [], 0⟩
  else
    withRetry g.retry "generateResponse" (fun n => genAttempt (fetches n))

/-- `OpenClawGateway.delegateToAgent` (lines 192–252).  `probe` is what the
pre-flight `checkConnection` reports; `fetches n` is the outcome of the
fetch performed by the `n`-th attempt.  Order of checks follows the source:
auth token, then probe, then the retry loop. -/
def delegateToAgent (g : OpenClawGateway) (taskType : String)
    (probe : ProbeResult) (fetches : Nat → Except JsError HttpResp) : DelegRun :=
  let targetAgent := targetAgentOf g taskType
  if g.authToken = none then
    ⟨Except.error "Auth token required for agent delegation", [], 0, false⟩
  else if probe.reachable = false then
    ⟨Except.error ("Cannot delegate to \"" ++ targetAgent ++
        "\": VPS is unreachable. " ++
        jsOrElse probe.error "Check gateway URL and server status."),
      [], 0, true⟩
  else
    let run := withRetry g.retry ("delegateToAgent(" ++ targetAgent ++ ")")
      (fun n => delegAttempt taskType targetAgent (fetches n))
    ⟨run.result, run.sleeps, run.calls, true⟩

/-- `behavior` block of a persona YAML (`persona-engine.ts` lines 19–24). -/
structure PersonaBehavior where
  tone : String
  proactiveness : String
  formality : String
  emoji_usage : Bool
deriving DecidableEq, Repr

/-- `PersonaConfig` from `persona-engine.ts` (lines 14–31). -/
structure PersonaConfig where
  name : String
  description : String
  version : String
  skills : List String
  behavior : PersonaBehavior
  first_message : String
deriving DecidableEq, Repr

/-- `MessageResponse` from `persona-engine.ts` (lines 33–38). -/
structure MessageResponse where
  message : String
  skillUsed : Option String
  persona : String
  delegatedAgent : Option String
deriving DecidableEq, Repr

/-- `PersonaEngine.getErrorResponse` (lines 243–260): the static
tone-selected apology string. -/
def getErrorResponse (persona : Option PersonaConfig) : String :=
  match persona with
  | none => "I'm sorry, I encountered an error processing your message."
  | some p =>
    if p.behavior.tone = "friendly" then
      if p.behavior.emoji_usage then
        "Oops! 😅 I ran into a small issue there. Could you try asking that again?"
      else
        "Sorry about that! I had a little hiccup processing your message. Could you try again?"
    else if p.behavior.tone = "professional" then
      "I apologize, but I encountered an error processing your request. Please try again."
    else
      "Something went wrong there. Mind trying that again?"

/-- The `try` block of `PersonaEngine.processMessage` (lines 126–158):
a non-null delegation result is returned as-is; otherwise the direct
generation outcome decides.  `delegateTask` catches its own errors and
returns null, so delegation failure shows up here as `none`; a throw from
`gateway.generateResponse` is the only escape into the `catch`. -/
def processMessageTry (currentPersona : String)
    (delegated : Option MessageResponse) (skillUsed : Option String)
    (genOutcome : Except JsError String) : Except JsError MessageResponse :=
  match delegated with
  | some d => Except.ok d
  | none =>
    match genOutcome with
    | Except.ok resp => Except.ok ⟨resp, skillUsed, currentPersona, none⟩
    | Except.error e => Except.error e

/-- `PersonaEngine.processMessage` with a persona loaded (lines 115–168):
the `catch` turns any raised error into the static persona-toned apology,
so the caller always receives a `MessageResponse`. -/
def processMessage (persona : PersonaConfig) (currentPersona : String)
    (delegated : Option MessageResponse) (skillUsed : Option String)
    (genOutcome : Except JsError String) : MessageResponse :=
  match processMessageTry currentPersona delegated skillUsed genOutcome with
  | Except.ok r => r
  | Except.error _ => ⟨getErrorResponse (some persona), none, currentPersona, none⟩

/-- The closed destination vocabulary checked by `orchestrateTask`
(line 348): `['main', 'coder', 'marketing', 'assistant']`. -/
def orchestratorVocab : List String := ["main", "coder", "marketing", "assistant"]

/-- JavaScript `String.prototype.trim`. -/
def jsTrim (s : String) : String :=
  ⟨((s.data.dropWhile Char.isWhitespace).reverse.dropWhile Char.isWhitespace).reverse⟩

/-- JavaScript `String.prototype.toLowerCase` (ASCII fragment). -/
def jsToLower (s : String) : String :=
  ⟨s.data.map Char.toLower⟩

/-- `decision.trim().toLowerCase().replace(/[^a-z]/g, '')` (line 345). -/
def cleanDecision (s : String) : String :=
  ⟨(jsToLower (jsTrim s)).data.filter (fun c => decide ('a' ≤ c ∧ c ≤ 'z'))⟩

/-- `PersonaEngine.orchestrateTask` (lines 335–363).  `routeOutcome` is what
the classification round-trip (`routeWithLLM`) produced: the raw reply, or
the raised error.  The `catch` maps any raised error to `main`; a cleaned
reply outside the closed vocabulary also maps to `main`. -/
def orchestrateTask (routeOutcome : Except JsError String) : String :=
  match routeOutcome with
  | Except.error _ => "main"
  | Except.ok decision =>
    let agent := cleanDecision decision
    if agent ∈ orchestratorVocab then agent else "main"

/-- Bounded check used to reason about the decimal representation of a
three-digit HTTP status: it has exactly three digit characters, and its
first character is `5` exactly when the status lies in `500..599`. -/
def reprCheck (s : Nat) : Bool :=
  match (Nat.repr s).data with
  | [d1, d2, d3] =>
      d1.isDigit && d2.isDigit && d3.isDigit &&
      ((d1 == '5') == (decide (500 ≤ s) && decide (s ≤ 599)))
  | _ => false

/-- The default retry policy of the source (`DEFAULT_RETRY`, lines 45–49). -/
def retryCfgEx : RetryConfig := ⟨3, 1000, 30000⟩

/-- A gateway configured with an auth token (constructor defaults applied). -/
def gwEx : OpenClawGateway := ⟨"http://localhost:18789", "main", some "secret-token", 120000, retryCfgEx⟩

/-- A gateway with no auth token configured. -/
def gwNoToken : OpenClawGateway := ⟨"http://localhost:18789", "main", none, 120000, retryCfgEx⟩

/-- The error produced by an `AbortController` deadline. -/
def abortErr : JsError := ⟨"AbortError", none, "This operation was aborted"⟩

/-- A plain agent-level error. -/
def boomErr : JsError := ⟨"Error", none, "boom"⟩

/-- An error message carrying the nonstandard HTTP status 600. -/
def e600 : JsError := ⟨"Error", none, "HTTP 600: nonstandard status"⟩

/-- A 200 response whose payload has an empty `choices` array. -/
def emptyChoicesResp : HttpResp := ⟨true, 200, "", ⟨[]⟩⟩

/-- A 200 response with one choice saying `hello`. -/
def helloResp : HttpResp := ⟨true, 200, "", ⟨[⟨⟨"hello"⟩⟩]⟩⟩

/-- A remote that always answers with an empty `choices` array. -/
def fetchesEmpty : Nat → Except JsError HttpResp := fun _ => Except.ok emptyChoicesResp

/-- A remote that always answers `hello`. -/
def fetchesHello : Nat → Except JsError HttpResp := fun _ => Except.ok helloResp

/-- A remote on which every fetch hits the client-side deadline. -/
def fetchesAbort : Nat → Except JsError HttpResp := fun _ => Except.error abortErr

/-- An operation that fails with a non-retryable agent-level error. -/
def outBoom : Nat → Except JsError String := fun _ => Except.error boomErr

/-- An operation that always times out. -/
def outAbort : Nat → Except JsError String := fun _ => Except.error abortErr

/-- A probe reporting the VPS unreachable. -/
def probeDown : ProbeResult := ⟨false, 3, some "Connection failed: fetch failed"⟩

/-- A probe reporting the VPS reachable. -/
def probeUp : ProbeResult := ⟨true, 3, none⟩

/-- A friendly persona with emoji enabled. -/
def personaFriendlyEmoji : PersonaConfig :=
  ⟨"Ava", "a friendly assistant", "1.0.0", [], ⟨"friendly", "high", "casual", true⟩, "hey!"⟩

/-- A friendly persona with emoji disabled. -/
def personaFriendlyPlain : PersonaConfig :=
  ⟨"Ava", "a friendly assistant", "1.0.0", [], ⟨"friendly", "high", "casual", false⟩, "hey!"⟩

/-- A professional persona. -/
def personaProfessional : PersonaConfig :=
  ⟨"Lex", "a formal assistant", "1.0.0", [], ⟨"professional", "low", "formal", false⟩, "Hello."⟩

/-- A persona with a tone that is neither friendly nor professional. -/
def personaCasual : PersonaConfig :=
  ⟨"Sam", "a laid-back assistant", "1.0.0", [], ⟨"casual", "medium", "casual", false⟩, "yo"⟩

/-- A connection-level fault in the sense of §4.1 of the spec: connection
refused, connection reset, DNS failure, undici connect timeout, or the
generic transport-level `fetch failed`. -/
def connFault (e : JsError) : Prop :=
  e.causeCode = some "ECONNREFUSED" ∨ e.causeCode = some "ECONNRESET" ∨
  e.causeCode = some "ENOTFOUND" ∨ e.causeCode = some "UND_ERR_CONNECT_TIMEOUT" ∨
  containsSub fetchFailedStr.data e.message.data = true

instance (e : JsError) : Decidable (connFault e) := by
  unfold connFault
  infer_instance

theorem strDataAppend (s t : String) : (s ++ t).data = s.data ++ t.data := rfl

theorem stringMkData (s : String) : String.mk s.data = s := rfl

theorem takeWhileAppend (p : Char → Bool) :
    ∀ (l r : List Char), l.all p = true →
      (l ++ r).takeWhile p = l ++ r.takeWhile p := by
  intro l r hl
  induction l with
  | nil => simp
  | cons a as ih =>
    simp only [List.all_cons, Bool.and_eq_true] at hl
    simp [List.takeWhile_cons_of_pos hl.1, ih hl.2]

theorem reprCheck_all : ∀ s, s < 1000 → 100 ≤ s → reprCheck s = true := by decide

theorem reprData3 (s : Nat) (h1 : 100 ≤ s) (h2 : s ≤ 999) :
    ∃ d1 d2 d3, (Nat.repr s).data = [d1, d2, d3] ∧
      d1.isDigit = true ∧ d2.isDigit = true ∧ d3.isDigit = true ∧
      ((d1 == '5') = (decide (500 ≤ s) && decide (s ≤ 599))) := by
  have hc := reprCheck_all s (by omega) h1
  unfold reprCheck at hc
  split at hc
  case _ d1 d2 d3 hdata =>
    simp only [Bool.and_eq_true, beq_iff_eq] at hc
    exact ⟨d1, d2, d3, hdata, hc.1.1.1, hc.1.1.2, hc.1.2, hc.2⟩
  case _ =>
    exact absurd hc (by simp)

theorem withRetryGo_calls_le {T : Type} (cfg : RetryConfig) (ctx : String)
    (out : Nat → Except JsError T) :
    ∀ gas attempt, (withRetryGo cfg ctx out attempt gas).calls ≤ gas := by
  intro gas
  induction gas with
  | zero => intro attempt; simp [withRetryGo]
  | succ g ih =>
    intro attempt
    unfold withRetryGo
    cases h : out attempt with
    | ok v => simp
    | error e =>
      simp only []
      split
      · simp
      · simpa using Nat.succ_le_succ (ih (attempt + 1))

theorem withRetryGo_sleeps {T : Type} (cfg : RetryConfig) (ctx : String)
    (out : Nat → Except JsError T) :
    ∀ gas attempt k, k < (withRetryGo cfg ctx out attempt gas).sleeps.length →
      (withRetryGo cfg ctx out attempt gas).sleeps[k]? =
        some (min (cfg.baseDelayMs * 2 ^ (attempt + k)) cfg.maxDelayMs) := by
  intro gas
  induction gas with
  | zero => intro attempt k hk; simp [withRetryGo] at hk
  | succ g ih =>
    intro attempt k hk
    unfold withRetryGo at hk ⊢
    cases h : out attempt with
    | ok v => simp [h] at hk
    | error e =>
      simp only [h] at hk ⊢
      split at hk
      · simp at hk
      · rename_i hcond
        simp only [List.length_cons] at hk
        rw [if_neg hcond]
        simp only []
        cases k with
        | zero => simp
        | succ k' =>
          have := ih (attempt + 1) k' (by omega)
          simp only [List.getElem?_cons_succ]
          rw [this]
          have harith : attempt + 1 + k' = attempt + (k' + 1) := by omega
          rw [harith]

theorem withRetryGo_calls_eq {T : Type} (cfg : RetryConfig) (ctx : String)
    (out : Nat → Except JsError T) :
    ∀ gas attempt, 1 ≤ gas → attempt + gas = cfg.maxRetries + 1 →
      (withRetryGo cfg ctx out attempt gas).calls =
        (withRetryGo cfg ctx out attempt gas).sleeps.length + 1 := by
  intro gas
  induction gas with
  | zero => intro attempt h1 _; omega
  | succ g ih =>
    intro attempt _ hinv
    unfold withRetryGo
    cases h : out attempt with
    | ok v => simp
    | error e =>
      simp only []
      split
      · simp
      · rename_i hcond
        have hne : ¬ attempt = cfg.maxRetries := fun hc => hcond (Or.inl hc)
        have hg : 1 ≤ g := by omega
        have := ih (attempt + 1) hg (by omega)
        simp [this]

theorem withRetryGo_ok {T : Type} (cfg : RetryConfig) (ctx : String)
    (out : Nat → Except JsError T) :
    ∀ gas attempt v, (withRetryGo cfg ctx out attempt gas).result = Except.ok v →
      ∃ j, out j = Except.ok v := by
  intro gas
  induction gas with
  | zero => intro attempt v hv; simp [withRetryGo] at hv
  | succ g ih =>
    intro attempt v hv
    unfold withRetryGo at hv
    cases h : out attempt with
    | ok w =>
      simp only [h] at hv
      injection hv with hv
      exact ⟨attempt, by rw [h, hv]⟩
    | error e =>
      simp only [h] at hv
      split at hv
      · simp at hv
      · exact ih (attempt + 1) v hv

theorem withRetryGo_nonretryable {T : Type} (cfg : RetryConfig) (ctx : String)
    (out : Nat → Except JsError T) :
    ∀ gas attempt j e, 1 ≤ gas → attempt + gas = cfg.maxRetries + 1 →
      attempt ≤ j → j ≤ cfg.maxRetries →
      (∀ i, attempt ≤ i → i < j → ∃ ei, out i = Except.error ei ∧ isRetryable ei = true) →
      out j = Except.error e → isRetryable e = false →
      (withRetryGo cfg ctx out attempt gas).result = Except.error (buildErrorMessage e ctx) ∧
      (withRetryGo cfg ctx out attempt gas).sleeps.length = j - attempt ∧
      (withRetryGo cfg ctx out attempt gas).calls = j - attempt + 1 := by
  intro gas
  induction gas with
  | zero => intro attempt j e h1; omega
  | succ g ih =>
    intro attempt j e _ hinv haj hjm hpre hj hnr
    rcases Nat.eq_or_lt_of_le haj with heq | hlt
    · subst heq
      unfold withRetryGo
      rw [hj]
      simp only []
      rw [if_pos (Or.inr hnr)]
      simp
    · obtain ⟨ei, hei, hri⟩ := hpre attempt (Nat.le_refl attempt) hlt
      unfold withRetryGo
      rw [hei]
      simp only []
      have hne : ¬ (attempt = cfg.maxRetries ∨ isRetryable ei = false) := by
        rintro (hc | hc)
        · omega
        · rw [hri] at hc; exact Bool.noConfusion hc
      rw [if_neg hne]
      have hg : 1 ≤ g := by omega
      have hrec := ih (attempt + 1) j e hg (by omega) hlt hjm
        (fun i hi1 hi2 => hpre i (by omega) hi2) hj hnr
      refine ⟨hrec.1, ?_, ?_⟩
      · simp only [List.length_cons, hrec.2.1]; omega
      · simp only [hrec.2.2]; omega

theorem withRetry_ok {T : Type} (cfg : RetryConfig) (opName : String)
    (out : Nat → Except JsError T) (v : T)
    (h : (withRetry cfg opName out).result = Except.ok v) : ∃ j, out j = Except.ok v :=
  withRetryGo_ok cfg ("OpenClaw " ++ opName) out (cfg.maxRetries + 1) 0 v h

theorem withRetry_calls_eq {T : Type} (cfg : RetryConfig) (opName : String)
    (out : Nat → Except JsError T) :
    (withRetry cfg opName out).calls = (withRetry cfg opName out).sleeps.length + 1 :=
  withRetryGo_calls_eq cfg ("OpenClaw " ++ opName) out (cfg.maxRetries + 1) 0
    (by omega) (by omega)

theorem withRetry_calls_le {T : Type} (cfg : RetryConfig) (opName : String)
    (out : Nat → Except JsError T) :
    (withRetry cfg opName out).calls ≤ cfg.maxRetries + 1 :=
  withRetryGo_calls_le cfg ("OpenClaw " ++ opName) out (cfg.maxRetries + 1) 0

theorem httpErrOf_data (s : Nat) (body : String) (d1 d2 d3 : Char)
    (hdata : (Nat.repr s).data = [d1, d2, d3]) :
    (httpErrOf s body).message.data =
      'H' :: 'T' :: 'T' :: 'P' :: ' ' :: d1 :: d2 :: d3 :: ':' :: ' ' :: body.data := by
  show ("HTTP " ++ Nat.repr s ++ ": " ++ body).data = _
  rw [strDataAppend, strDataAppend, strDataAppend, hdata]
  have hH : ("HTTP " : String).data = ['H', 'T', 'T', 'P', ' '] := rfl
  have hC : (": " : String).data = [':', ' '] := rfl
  rw [hH, hC]
  simp

theorem httpErrOf_message (s : Nat) (body : String) (d1 d2 d3 : Char)
    (hdata : (Nat.repr s).data = [d1, d2, d3]) :
    (httpErrOf s body).message =
      String.mk ('H' :: 'T' :: 'T' :: 'P' :: ' ' :: d1 :: d2 :: d3 :: ':' :: ' ' :: body.data) := by
  rw [← httpErrOf_data s body d1 d2 d3 hdata]

theorem startsWithHTTP_cons (a b c d e : Char) (rest : List Char) :
    startsWithHTTP (String.mk (a :: b :: c :: d :: e :: rest)) =
      (a == 'H' && b == 'T' && c == 'T' && d == 'P' && e == ' ') := rfl

theorem matchHTTP5dd_cons (a b c d e c1 c2 c3 : Char) (rest : List Char) :
    matchHTTP5dd (String.mk (a :: b :: c :: d :: e :: c1 :: c2 :: c3 :: rest)) =
      (a == 'H' && b == 'T' && c == 'T' && d == 'P' && e == ' ' &&
        c1 == '5' && c2.isDigit && c3.isDigit) := rfl

theorem httpStatusString_cons (a b c d e : Char) (rest : List Char) :
    httpStatusString (String.mk (a :: b :: c :: d :: e :: rest)) =
      if a == 'H' && b == 'T' && c == 'T' && d == 'P' && e == ' ' then
        if rest.takeWhile Char.isDigit = [] then "unknown"
        else String.mk (rest.takeWhile Char.isDigit)
      else "unknown" := rfl

/-- C1: every run of `withRetry` invokes the wrapped operation at most
`maxRetries + 1` times, and the backoff delay slept between attempt `k` and
attempt `k + 1` is exactly `min(baseDelayMs * 2^k, maxDelayMs)`. -/
theorem retry_attempt_bound_and_backoff {T : Type} (cfg : RetryConfig)
    (operationName : String) (out : Nat → Except JsError T) :
    (withRetry cfg operationName out).calls ≤ cfg.maxRetries + 1 ∧
    ∀ k, k < (withRetry cfg operationName out).sleeps.length →
      (withRetry cfg operationName out).sleeps[k]? =
        some (min (cfg.baseDelayMs * 2 ^ k) cfg.maxDelayMs) := by
  constructor
  · exact withRetry_calls_le cfg operationName out
  · intro k hk
    have h := withRetryGo_sleeps cfg ("OpenClaw " ++ operationName) out
      (cfg.maxRetries + 1) 0 k hk
    simpa using h

/-- Witness for C1 on the default retry policy with an always-timing-out
operation: four calls at most, and the delay slept after the second attempt
is `min(1000 * 2^1, 30000)`. -/
theorem retry_attempt_bound_and_backoff_witness :
    (withRetry retryCfgEx "generateResponse" outAbort).calls ≤ retryCfgEx.maxRetries + 1 ∧
    (withRetry retryCfgEx "generateResponse" outAbort).sleeps[1]? =
      some (min (retryCfgEx.baseDelayMs * 2 ^ 1) retryCfgEx.maxDelayMs) := by
  have h := retry_attempt_bound_and_backoff retryCfgEx "generateResponse" outAbort
  exact ⟨h.1, h.2 1 (by decide)⟩

/-- C10: a non-retryable failure at attempt `j` (after `j` retryable ones)
terminates the Retry Executor immediately: exactly `j` backoff sleeps in
total (none after the non-retryable failure), exactly `j + 1` invocations,
and the re-raised error message is `buildErrorMessage` of that failure
composed with the `OpenClaw <operationName>` label. -/
theorem nonretryable_failure_terminal (cfg : RetryConfig) (operationName : String)
    (out : Nat → Except JsError String) (j : Nat) (e : JsError)
    (hj : j ≤ cfg.maxRetries)
    (hpre : ∀ i, i < j → ∃ ei, out i = Except.error ei ∧ isRetryable ei = true)
    (hout : out j = Except.error e) (hnr : isRetryable e = false) :
    (withRetry cfg operationName out).result =
      Except.error (buildErrorMessage e ("OpenClaw " ++ operationName)) ∧
    (withRetry cfg operationName out).sleeps.length = j ∧
    (withRetry cfg operationName out).calls = j + 1 := by
  have h := withRetryGo_nonretryable cfg ("OpenClaw " ++ operationName) out
    (cfg.maxRetries + 1) 0 j e (by omega) (by omega) (Nat.zero_le j) hj
    (fun i _ hi => hpre i hi) hout hnr
  simpa using h

/-- Witness for C10: an agent-level error on the very first attempt gives no
sleep, one invocation, and the composed error message. -/
theorem nonretryable_failure_terminal_witness :
    (withRetry retryCfgEx "generateResponse" outBoom).result =
      Except.error (buildErrorMessage boomErr ("OpenClaw " ++ "generateResponse")) ∧
    (withRetry retryCfgEx "generateResponse" outBoom).sleeps.length = 0 ∧
    (withRetry retryCfgEx "generateResponse" outBoom).calls = 1 :=
  nonretryable_failure_terminal retryCfgEx "generateResponse" outBoom 0 boomErr
    (by decide) (fun i hi => absurd hi (Nat.not_lt_zero i)) rfl (by decide)

/-- C3 (code bug): the Task Router's closed vocabulary contains
`assistant` and `orchestrateTask` can return it, but `delegateToAgent`'s
destination-to-agent map has no entry for it — the JavaScript lookup yields
`undefined` and the posted model string is `openclaw:undefined`, not a
defined specialist identity.  The other three destinations do resolve. -/
theorem assistant_destination_unmapped :
    "assistant" ∈ orchestratorVocab ∧
    orchestrateTask (Except.ok "assistant") = "assistant" ∧
    agentMap gwEx "assistant" = none ∧
    targetAgentOf gwEx "assistant" = "undefined" ∧
    delegationModel gwEx "assistant" = "openclaw:undefined" ∧
    agentMap gwEx "main" = some "main" ∧
    agentMap gwEx "coder" = some "coder" ∧
    agentMap gwEx "marketing" = some "marketing" := by
  refine ⟨by decide, by decide, by decide, by decide, by decide, by decide, by decide, by decide⟩

/-- C6 counterexample: on total failure with a friendly persona whose
`emoji_usage` is false, `processMessage` returns the friendly no-emoji
apology, not the default apology the claim's three-way tone lookup
prescribes for this case. -/
theorem apology_friendly_no_emoji_counterexample :
    (processMessage personaFriendlyPlain "ava" none none (Except.error boomErr)).message =
      "Sorry about that! I had a little hiccup processing your message. Could you try again?" ∧
    (processMessage personaFriendlyPlain "ava" none none (Except.error boomErr)).message ≠
      "Something went wrong there. Mind trying that again?" := by
  exact ⟨by decide, by decide⟩

/-- C6 amended: with a persona loaded, `processMessage` never raises — when
delegation produced nothing and direct generation failed it returns the
static tone-selected apology: friendly with emoji gives the emoji apology,
friendly without emoji gives the friendly plain apology, professional gives
the formal apology, and any other tone gives the default apology; no
further network call is made (the apology is a pure tone lookup). -/
theorem orchestrator_total_failure_apology (p : PersonaConfig) (cp : String)
    (skillUsed : Option String) (e : JsError) :
    (processMessage p cp none skillUsed (Except.error e)).message =
      getErrorResponse (some p) ∧
    (processMessage p cp none skillUsed (Except.error e)).persona = cp ∧
    (p.behavior.tone = "friendly" → p.behavior.emoji_usage = true →
      (processMessage p cp none skillUsed (Except.error e)).message =
        "Oops! 😅 I ran into a small issue there. Could you try asking that again?") ∧
    (p.behavior.tone = "friendly" → p.behavior.emoji_usage = false →
      (processMessage p cp none skillUsed (Except.error e)).message =
        "Sorry about that! I had a little hiccup processing your message. Could you try again?") ∧
    (p.behavior.tone = "professional" →
      (processMessage p cp none skillUsed (Except.error e)).message =
        "I apologize, but I encountered an error processing your request. Please try again.") ∧
    (p.behavior.tone ≠ "friendly" → p.behavior.tone ≠ "professional" →
      (processMessage p cp none skillUsed (Except.error e)).message =
        "Something went wrong there. Mind trying that again?") := by
  refine ⟨rfl, rfl, ?_, ?_, ?_, ?_⟩
  · intro ht he
    simp [processMessage, processMessageTry, getErrorResponse, ht, he]
  · intro ht he
    simp [processMessage, processMessageTry, getErrorResponse, ht, he]
  · intro ht
    simp [processMessage, processMessageTry, getErrorResponse, ht]
  · intro ht hp
    simp [processMessage, processMessageTry, getErrorResponse, ht, hp]

/-- Witness for the amended C6 at the four concrete personas. -/
theorem orchestrator_total_failure_apology_witness :
    (processMessage personaFriendlyEmoji "ava" none none (Except.error boomErr)).message =
      "Oops! 😅 I ran into a small issue there. Could you try asking that again?" ∧
    (processMessage personaFriendlyPlain "ava" none none (Except.error boomErr)).message =
      "Sorry about that! I had a little hiccup processing your message. Could you try again?" ∧
    (processMessage personaProfessional "lex" none none (Except.error boomErr)).message =
      "I apologize, but I encountered an error processing your request. Please try again." ∧
    (processMessage personaCasual "sam" none none (Except.error boomErr)).message =
      "Something went wrong there. Mind trying that again?" := by
  refine ⟨?_, ?_, ?_, ?_⟩
  · exact (orchestrator_total_failure_apology personaFriendlyEmoji "ava" none boomErr).2.2.1
      rfl rfl
  · exact (orchestrator_total_failure_apology personaFriendlyPlain "ava" none boomErr).2.2.2.1
      rfl rfl
  · exact (orchestrator_total_failure_apology personaProfessional "lex" none boomErr).2.2.2.2.1
      rfl
  · exact (orchestrator_total_failure_apology personaCasual "sam" none boomErr).2.2.2.2.2
      (by decide) (by decide)

/-- C7: the Task Router lower-cases and strips the classification reply to
the alphabet `a..z`; a reply whose cleaned form is outside the closed
vocabulary yields `main`, any raised error yields `main`, and a cleaned
reply inside the vocabulary is returned as-is. -/
theorem router_defaults_to_main :
    (∀ e : JsError, orchestrateTask (Except.error e) = "main") ∧
    (∀ s : String, cleanDecision s ∉ orchestratorVocab →
      orchestrateTask (Except.ok s) = "main") ∧
    (∀ s : String, cleanDecision s ∈ orchestratorVocab →
      orchestrateTask (Except.ok s) = cleanDecision s) := by
  refine ⟨fun e => rfl, fun s hs => ?_, fun s hs => ?_⟩
  · simp [orchestrateTask, hs]
  · simp [orchestrateTask, hs]

/-- Witness for C7: a raised error and the reply `"  Banana!! "` both map
to `main`; the reply `" CODER. "` cleans to `coder` and is returned. -/
theorem router_defaults_to_main_witness :
    orchestrateTask (Except.error boomErr) = "main" ∧
    orchestrateTask (Except.ok "  Banana!! ") = "main" ∧
    orchestrateTask (Except.ok " CODER. ") = "coder" := by
  have h := router_defaults_to_main
  exact ⟨h.1 boomErr, h.2.1 "  Banana!! " (by decide),
    (h.2.2 " CODER. " (by decide)).trans (by decide)⟩

/-- C8: with no bearer credential configured, `generateResponse` and
`delegateToAgent` raise their configuration error with zero fetches, zero
sleeps, and (for delegation) no connection probe. -/
theorem missing_token_fails_before_io (g : OpenClawGateway) (taskType : String)
    (probe : ProbeResult) (fetches : Nat → Except JsError HttpResp)
    (h : g.authToken = none) :
    generateResponse g fetches =
      ⟨Except.error "Auth token required for OpenClaw OpenAI API", [], 0⟩ ∧
    delegateToAgent g taskType probe fetches =
      ⟨Except.error "Auth token required for agent delegation", [], 0, false⟩ := by
  constructor
  · simp [generateResponse, h]
  · simp [delegateToAgent, h]

/-- Witness for C8 on a token-less gateway. -/
theorem missing_token_fails_before_io_witness :
    generateResponse gwNoToken fetchesHello =
      ⟨Except.error "Auth token required for OpenClaw OpenAI API", [], 0⟩ ∧
    delegateToAgent gwNoToken "coder" probeUp fetchesHello =
      ⟨Except.error "Auth token required for agent delegation", [], 0, false⟩ :=
  missing_token_fails_before_io gwNoToken "coder" probeUp fetchesHello rfl

/-- C4: with a credential configured, an unreachable probe makes
`delegateToAgent` fail immediately with the `VPS is unreachable` error —
zero chat-completion POSTs, zero sleeps, no retry loop; a reachable probe
leads into the retry loop, which issues exactly one chat-completion POST
per attempt (`posts = sleeps + 1`), at least one and at most
`maxRetries + 1` in total. -/
theorem probe_gates_delegation (g : OpenClawGateway) (taskType : String)
    (probe : ProbeResult) (fetches : Nat → Except JsError HttpResp) (tok : String)
    (htok : g.authToken = some tok) :
    (probe.reachable = false →
      delegateToAgent g taskType probe fetches =
        ⟨Except.error ("Cannot delegate to \"" ++ targetAgentOf g taskType ++
            "\": VPS is unreachable. " ++
            jsOrElse probe.error "Check gateway URL and server status."),
          [], 0, true⟩) ∧
    (probe.reachable = true →
      (delegateToAgent g taskType probe fetches).posts =
        (delegateToAgent g taskType probe fetches).sleeps.length + 1 ∧
      1 ≤ (delegateToAgent g taskType probe fetches).posts ∧
      (delegateToAgent g taskType probe fetches).posts ≤ g.retry.maxRetries + 1) := by
  constructor
  · intro hreach
    simp [delegateToAgent, htok, hreach]
  · intro hreach
    have hne : ¬ probe.reachable = false := by simp [hreach]
    simp only [delegateToAgent, htok, hne, if_neg, if_false]
    simp only [reduceCtorEq, if_false]
    refine ⟨withRetry_calls_eq _ _ _, ?_, withRetry_calls_le _ _ _⟩
    rw [withRetry_calls_eq]
    omega

/-- Witness for C4: unreachable probe gives the immediate unreachable
error with zero POSTs; reachable probe with a healthy remote gives one
POST. -/
theorem probe_gates_delegation_witness :
    delegateToAgent gwEx "coder" probeDown fetchesHello =
      ⟨Except.error ("Cannot delegate to \"" ++ targetAgentOf gwEx "coder" ++
          "\": VPS is unreachable. " ++
          jsOrElse probeDown.error "Check gateway URL and server status."),
        [], 0, true⟩ ∧
    (delegateToAgent gwEx "coder" probeUp fetchesHello).posts =
      (delegateToAgent gwEx "coder" probeUp fetchesHello).sleeps.length + 1 ∧
    1 ≤ (delegateToAgent gwEx "coder" probeUp fetchesHello).posts ∧
    (delegateToAgent gwEx "coder" probeUp fetchesHello).posts ≤
      gwEx.retry.maxRetries + 1 := by
  have h1 := (probe_gates_delegation gwEx "coder" probeDown fetchesHello
    "secret-token" rfl).1 rfl
  have h2 := (probe_gates_delegation gwEx "coder" probeUp fetchesHello
    "secret-token" rfl).2 rfl
  exact ⟨h1, h2⟩

/-- C5: a 200 payload whose `choices` array is empty makes both attempt
bodies raise their `Unexpected ... response format` error, which the
classifier categorizes as an agent-level failure; and a successful
`DelegationResult` (or `generateResponse` text) can only arise from some
fetch that returned `ok` with a non-empty `choices` array whose first
choice supplies the response text — never from an empty payload. -/
theorem empty_choices_agent_error :
    categorizeError genFormatErr = FailureCategory.agent ∧
    categorizeError delegFormatErr = FailureCategory.agent ∧
    (∀ r : HttpResp, r.ok = true → r.json.choices = [] →
      genAttempt (Except.ok r) = Except.error genFormatErr) ∧
    (∀ taskType targetAgent : String, ∀ r : HttpResp,
      r.ok = true → r.json.choices = [] →
      delegAttempt taskType targetAgent (Except.ok r) = Except.error delegFormatErr) ∧
    (∀ (g : OpenClawGateway) (taskType : String) (probe : ProbeResult)
        (fetches : Nat → Except JsError HttpResp) (d : DelegationResult),
      (delegateToAgent g taskType probe fetches).result = Except.ok d →
      ∃ j r c rest, fetches j = Except.ok r ∧ r.ok = true ∧
        r.json.choices = c :: rest ∧ d.response = c.message.content) ∧
    (∀ (g : OpenClawGateway) (fetches : Nat → Except JsError HttpResp) (resp : String),
      (generateResponse g fetches).result = Except.ok resp →
      ∃ j r c rest, fetches j = Except.ok r ∧ r.ok = true ∧
        r.json.choices = c :: rest ∧ resp = c.message.content) := by
  refine ⟨by decide, by decide, ?_, ?_, ?_, ?_⟩
  · intro r h1 h2
    simp [genAttempt, h1, h2]
  · intro taskType targetAgent r h1 h2
    simp [delegAttempt, h1, h2]
  · intro g taskType probe fetches d hd
    by_cases htok : g.authToken = none
    · simp [delegateToAgent, htok] at hd
    · by_cases hreach : probe.reachable = false
      · simp [delegateToAgent, htok, hreach] at hd
      · simp only [delegateToAgent, htok, hreach, if_neg, if_false] at hd
        simp only [reduceCtorEq, if_false] at hd
        obtain ⟨j, hj⟩ := withRetry_ok _ _ _ _ hd
        cases hf : fetches j with
        | error e => rw [hf] at hj; simp [delegAttempt] at hj
        | ok r =>
          rw [hf] at hj
          by_cases hok : r.ok = true
          · cases hc : r.json.choices with
            | nil => simp [delegAttempt, hok, hc] at hj
            | cons c rest =>
              simp [delegAttempt, hok, hc] at hj
              exact ⟨j, r, c, rest, hf, hok, hc, by rw [← hj]⟩
          · simp [delegAttempt, hok] at hj
  · intro g fetches resp hr
    by_cases htok : g.authToken = none
    · simp [generateResponse, htok] at hr
    · simp only [generateResponse, htok, if_neg, if_false] at hr
      obtain ⟨j, hj⟩ := withRetry_ok _ _ _ _ hr
      cases hf : fetches j with
      | error e => rw [hf] at hj; simp [genAttempt] at hj
      | ok r =>
        rw [hf] at hj
        by_cases hok : r.ok = true
        · cases hc : r.json.choices with
          | nil => simp [genAttempt, hok, hc] at hj
          | cons c rest =>
            simp [genAttempt, hok, hc] at hj
            exact ⟨j, r, c, rest, hf, hok, hc, by rw [← hj]⟩
        · simp [genAttempt, hok] at hj

/-- Witness for C5 on the concrete empty-choices payload. -/
theorem empty_choices_agent_error_witness :
    genAttempt (Except.ok emptyChoicesResp) = Except.error genFormatErr ∧
    delegAttempt "coder" "coder" (Except.ok emptyChoicesResp) =
      Except.error delegFormatErr := by
  have h := empty_choices_agent_error
  exact ⟨h.2.2.1 emptyChoicesResp rfl rfl,
    h.2.2.2.1 "coder" "coder" emptyChoicesResp rfl rfl⟩

/-- C2 counterexample: the error message `HTTP 600: nonstandard status` is
categorized as an HTTP failure with status 600 ≥ 500, yet `isRetryable` is
false — the code's regex `/^HTTP 5\d\d/` accepts only statuses whose first
digit is 5, not every status ≥ 500. -/
theorem retryable_status600_counterexample :
    categorizeError e600 = FailureCategory.http ∧
    parseStatusNat e600.message = some 600 ∧
    500 ≤ 600 ∧
    isRetryable e600 = false := by
  refine ⟨by decide, by decide, by decide, by decide⟩

/-- C2 amended: `isRetryable` is true for every timeout and network
failure, false for every agent-level failure, and for an HTTP failure
`HTTP <status>: <body>` with a three-digit status it is true exactly when
the status lies in `500..599` (the regex `/^HTTP 5\d\d/`), not for every
status ≥ 500. -/
theorem retryable_exactly_5xx :
    (∀ e, categorizeError e = FailureCategory.timeout → isRetryable e = true) ∧
    (∀ e, categorizeError e = FailureCategory.network → isRetryable e = true) ∧
    (∀ e, categorizeError e = FailureCategory.agent → isRetryable e = false) ∧
    (∀ (s : Nat) (body : String), 100 ≤ s → s ≤ 999 →
      containsSub fetchFailedStr.data (httpErrOf s body).message.data = false →
      isRetryable (httpErrOf s body) = (decide (500 ≤ s) && decide (s ≤ 599))) := by
  refine ⟨?_, ?_, ?_, ?_⟩
  · intro e h; unfold isRetryable; rw [h]
  · intro e h; unfold isRetryable; rw [h]
  · intro e h; unfold isRetryable; rw [h]
  · intro s body h1 h2 hff
    obtain ⟨d1, d2, d3, hdata, hd1, hd2, hd3, h5⟩ := reprData3 s h1 h2
    have hmsg := httpErrOf_data s body d1 d2 d3 hdata
    have hnet : ¬ ((httpErrOf s body).causeCode = some "ECONNREFUSED" ∨
        (httpErrOf s body).causeCode = some "ECONNRESET" ∨
        (httpErrOf s body).causeCode = some "ENOTFOUND" ∨
        (httpErrOf s body).causeCode = some "UND_ERR_CONNECT_TIMEOUT" ∨
        containsSub fetchFailedStr.data (httpErrOf s body).message.data = true) := by
      rintro (hc | hc | hc | hc | hc)
      · exact Option.noConfusion hc
      · exact Option.noConfusion hc
      · exact Option.noConfusion hc
      · exact Option.noConfusion hc
      · rw [hff] at hc; exact Bool.noConfusion hc
    have hm2 := httpErrOf_message s body d1 d2 d3 hdata
    have hstart : startsWithHTTP (httpErrOf s body).message = true := by
      rw [hm2, startsWithHTTP_cons]
      decide
    have hcat : categorizeError (httpErrOf s body) = FailureCategory.http := by
      unfold categorizeError
      rw [if_neg (by simp [httpErrOf]), if_neg hnet, if_pos hstart]
    unfold isRetryable
    rw [hcat, hm2, matchHTTP5dd_cons]
    simp only [hd2, hd3, Bool.and_true, beq_self_eq_true, Bool.true_and]
    exact h5

/-- Witness for the amended C2: a timeout is retryable, `HTTP 503` is
retryable, `HTTP 404` is not. -/
theorem retryable_exactly_5xx_witness :
    isRetryable abortErr = true ∧
    isRetryable (httpErrOf 503 "upstream down") = true ∧
    isRetryable (httpErrOf 404 "missing") = false := by
  have h := retryable_exactly_5xx
  refine ⟨h.1 abortErr (by decide), ?_, ?_⟩
  · have hc := h.2.2.2 503 "upstream down" (by omega) (by omega) (by decide)
    simpa using hc
  · have hc := h.2.2.2 404 "missing" (by omega) (by omega) (by decide)
    simpa using hc

/-- C9: `categorizeError` is total and assigns exactly one category by the
ordered cascade the spec describes — an abort fault is a timeout; otherwise
a connection-level fault (refused / reset / DNS failure / undici connect
timeout / transport `fetch failed`) is a network failure; otherwise a
message starting `HTTP ` is an HTTP failure; everything else is an
agent-level failure.  For the HTTP errors the gateway itself throws,
the status digits are preserved and recovered verbatim by the status
extraction that `buildErrorMessage` uses. -/
theorem classifier_total_and_ordered :
    (∀ e : JsError,
      (categorizeError e = FailureCategory.timeout ↔ e.name = "AbortError") ∧
      (categorizeError e = FailureCategory.network ↔
        e.name ≠ "AbortError" ∧ connFault e) ∧
      (categorizeError e = FailureCategory.http ↔
        e.name ≠ "AbortError" ∧ ¬ connFault e ∧ startsWithHTTP e.message = true) ∧
      (categorizeError e = FailureCategory.agent ↔
        e.name ≠ "AbortError" ∧ ¬ connFault e ∧ startsWithHTTP e.message = false)) ∧
    (∀ (s : Nat) (body : String), 100 ≤ s → s ≤ 999 →
      httpStatusString (httpErrOf s body).message = Nat.repr s) := by
  constructor
  · intro e
    unfold categorizeError connFault
    split_ifs with ha hb hc <;> simp_all
  · intro s body h1 h2
    obtain ⟨d1, d2, d3, hdata, hd1, hd2, hd3, _⟩ := reprData3 s h1 h2
    have hm2 := httpErrOf_message s body d1 d2 d3 hdata
    rw [hm2, httpStatusString_cons]
    rw [if_pos (by decide)]
    simp only [List.takeWhile_cons_of_pos hd1, List.takeWhile_cons_of_pos hd2,
      List.takeWhile_cons_of_pos hd3,
      List.takeWhile_cons_of_neg (by decide : ¬ (Char.isDigit ':' = true))]
    rw [if_neg (by simp)]
    rw [← hdata]

/-- Witness for C9: the abort error is a timeout, a connection-refused
error is a network failure, the plain `boom` error is agent-level, and the
status of `HTTP 503` round-trips through the extraction. -/
theorem classifier_total_and_ordered_witness :
    categorizeError abortErr = FailureCategory.timeout ∧
    categorizeError (JsError.mk "TypeError" (some "ECONNREFUSED") "fetch failed") =
      FailureCategory.network ∧
    categorizeError boomErr = FailureCategory.agent ∧
    httpStatusString (httpErrOf 503 "upstream down").message = "503" := by
  have h := classifier_total_and_ordered
  refine ⟨(h.1 abortErr).1.mpr rfl, ?_, ?_, ?_⟩
  · exact (h.1 (JsError.mk "TypeError" (some "ECONNREFUSED") "fetch failed")).2.1.mpr
      ⟨by decide, Or.inl rfl⟩
  · exact (h.1 boomErr).2.2.2.mpr ⟨by decide, by decide, by decide⟩
  · exact (h.2 503 "upstream down" (by omega) (by omega)).trans (by decide)

end Buildaagent
